import Mathlib

/-!
# Verification of the newsletter content pipeline

Shallow embedding of the deduplication, scoring, categorisation and
ranking logic of the sfp-newsletter-automation repository, together with
theorems settling the frozen claims about it.

Strings are modelled as `List Char` (`Str`); JavaScript strings are UTF-16
but every input of interest here is plain text, where the two models agree
character for character.  JavaScript floating-point arithmetic is modelled
by exact rational arithmetic (`ℚ`).
-/

set_option maxRecDepth 8000

/-- Strings, modelled as lists of characters. -/
abbrev Str := List Char

namespace JsText

/-- The whitespace class matched by the `\s` regexes and by `String.trim`
in the source (restricted to the ASCII whitespace actually produced by the
scraper: space, tab, newline, carriage return). -/
def isWsJs (c : Char) : Bool :=
  c = ' ' || c = '\t' || c = '\n' || c = '\r'

/-- `String.prototype.toLowerCase`, on the ASCII range (`Char.toLower`
lowers exactly the ASCII uppercase letters). -/
def toLowerStr (s : Str) : Str := s.map Char.toLower

/-- Does `s` start with `p`?  Helper for the substring test. -/
def startsWithB : Str → Str → Bool
  | _, [] => true
  | [], _ :: _ => false
  | c :: s, d :: p => c = d && startsWithB s p

/-- `String.prototype.includes`: does `needle` occur as a contiguous
substring of `hay`? -/
def containsSub : Str → Str → Bool
  | [], needle => startsWithB [] needle
  | c :: s, needle => startsWithB (c :: s) needle || containsSub s needle

/-- The loop of `str.split(/\s+/)`, one character at a time: `cur` is the
piece being accumulated (reversed), `inRun` whether the previous character
was part of a whitespace run whose piece has already been emitted. -/
def splitWsGo : Str → Str → Bool → List Str
  | [], cur, _ => [cur.reverse]
  | c :: rest, cur, inRun =>
    if isWsJs c then
      if inRun then splitWsGo rest cur true
      else cur.reverse :: splitWsGo rest [] true
    else splitWsGo rest (c :: cur) false

/-- `str.split(/\s+/)`: the pieces between maximal nonempty whitespace
runs, keeping the empty leading/trailing pieces JavaScript produces when
the string starts or ends with whitespace. -/
def splitWs (s : Str) : List Str := splitWsGo s [] false

/-- `str.split(' ')`: split on every single space character. -/
def splitSpaceGo : Str → Str → List Str
  | [], cur => [cur.reverse]
  | c :: rest, cur =>
    if c = ' ' then cur.reverse :: splitSpaceGo rest []
    else splitSpaceGo rest (c :: cur)

/-- `str.split(' ')`. -/
def splitSpace (s : Str) : List Str := splitSpaceGo s []

/-- The loop of `str.replace(/\s+/g, ' ')`, one character at a time:
`inRun` records whether the single space for the current whitespace run
has already been emitted. -/
def collapseWsGo : Str → Bool → Str
  | [], _ => []
  | c :: rest, inRun =>
    if isWsJs c then
      if inRun then collapseWsGo rest true
      else ' ' :: collapseWsGo rest true
    else c :: collapseWsGo rest false

/-- `str.replace(/\s+/g, ' ')`: every maximal whitespace run becomes a
single space. -/
def collapseWs (s : Str) : Str := collapseWsGo s false

/-- `String.prototype.trim` (over the modelled whitespace class). -/
def trimJs (s : Str) : Str :=
  ((s.dropWhile isWsJs).reverse.dropWhile isWsJs).reverse

/-- `arr.join(' ')`. -/
def joinSpace : List Str → Str
  | [] => []
  | [w] => w
  | w :: ws => w ++ ' ' :: joinSpace ws

/-- ASCII letters and digits, the class kept by `/[^a-zA-Z0-9\s]/g`
removal. -/
def isAlnumAscii (c : Char) : Bool :=
  ('a' ≤ c && c ≤ 'z') || ('A' ≤ c && c ≤ 'Z') || ('0' ≤ c && c ≤ '9')

/-- `Array.prototype.find`, as a first-match search. -/
def findFirst {α : Type} (p : α → Bool) : List α → Option α
  | [] => none
  | x :: xs => if p x then some x else findFirst p xs

end JsText

open JsText

/-- The article record that flows through the pipeline: the fields read by
the embedded functions.  `category` is the empty string when unset (the
JavaScript `undefined`, which is falsy exactly like `''`); `compositeScore`
and `categoryPriority` are attached by `prioritizeByCategory`. -/
structure Article where
  title : Str
  url : Str
  summary : Str
  category : Str
  relevanceScore : ℚ
  compositeScore : ℚ
  categoryPriority : ℚ
deriving DecidableEq

/-- A configured source, as read by `calculateRelevanceScore`. -/
structure Source where
  name : Str
  priority : Int
  category : Str
deriving DecidableEq

namespace SheetsManager

/-- JavaScript `x | 0` / `x & x`: reduce an integer to 32-bit two's
complement. -/
def jsToInt32 (x : Int) : Int :=
  (x + 2 ^ 31) % 2 ^ 32 - 2 ^ 31

/-- One step of `generateHash`: `hash = ((hash << 5) - hash) + char;
hash = hash & hash`.  The shift truncates to 32 bits before the
subtraction; the final `&` truncates the result. -/
def hashStep (h : Int) (c : Nat) : Int :=
  jsToInt32 (jsToInt32 (h * 32) - h + c)

/-- Base-36 digit characters, as produced by `Number.prototype.toString(36)`:
`0`-`9` then `a`-`z`. -/
def base36digit (n : Nat) : Char :=
  if n < 10 then Char.ofNat (48 + n) else Char.ofNat (87 + n)

/-- Big-endian base-36 digits of a positive number, with an explicit fuel
bound (`n / 36 < n` for positive `n`, so `n` itself is fuel enough). -/
def natToBase36Go : Nat → Nat → Str
  | 0, _ => []
  | f + 1, n =>
    if n = 0 then []
    else natToBase36Go f (n / 36) ++ [base36digit (n % 36)]

/-- `Math.abs(hash).toString(36)` for a natural number. -/
def natToBase36 (n : Nat) : Str :=
  if n = 0 then ['0'] else natToBase36Go (n + 1) n

/-- `SheetsManager.generateHash`: the 32-bit rolling hash of the content
string, rendered as the base-36 digits of its absolute value. -/
def generateHash (content : Str) : Str :=
  natToBase36 (content.foldl (fun h c => hashStep h c.toNat) 0).natAbs

/-- The duplicate-skipping loop of `SheetsManager.saveArticles`: an article
whose `generateHash(title + url)` is among the archive's existing hashes is
skipped, every other article is kept (and appended to the sheet, which is
external to this model).  The list of existing hashes is fetched once and
not extended during the loop, exactly as in the source. -/
def saveArticles (existingHashes : List Str) : List Article → List Article
  | [] => []
  | a :: rest =>
    if generateHash (a.title ++ a.url) ∈ existingHashes then
      saveArticles existingHashes rest
    else
      a :: saveArticles existingHashes rest

/-- The `proTerms` keyword list of `determineSegmentTag`. -/
def proTerms : List Str :=
  ["compliance".data, "enforcement".data, "legal".data, "audit".data,
   "penalty".data, "court".data, "regulation".data, "nhvr".data,
   "accreditation".data, "prosecution".data, "fine".data,
   "chain of responsibility".data, "cor".data, "hvnl".data]

/-- The `driverTerms` keyword list of `determineSegmentTag`. -/
def driverTerms : List Str :=
  ["safety".data, "driver".data, "fatigue".data, "maintenance".data,
   "inspection".data, "tips".data, "practical".data, "vehicle check".data,
   "roadworthy".data, "brake".data, "tyre".data]

/-- `terms.reduce((score, term) => content.includes(term) ? score + 1 :
score, 0)`: how many of the terms occur in the content. -/
def countTerms (content : Str) (terms : List Str) : Nat :=
  (terms.filter (fun t => containsSub content t)).length

/-- The lowercased `title + ' ' + summary` content string used by
`determineSegmentTag`. -/
def segContent (a : Article) : Str :=
  toLowerStr (a.title ++ ' ' :: a.summary)

/-- Pro-keyword hit count of an article. -/
def proScore (a : Article) : Nat := countTerms (segContent a) proTerms

/-- Driver-keyword hit count of an article. -/
def driverScore (a : Article) : Nat := countTerms (segContent a) driverTerms

/-- `SheetsManager.determineSegmentTag`: `pro` when the pro count exceeds
the driver count by more than 1, `driver` symmetrically, otherwise
`both`. -/
def determineSegmentTag (a : Article) : Str :=
  if driverScore a + 1 < proScore a then "pro".data
  else if proScore a + 1 < driverScore a then "driver".data
  else "both".data

end SheetsManager

namespace EnhancedNewsScraper

/-- The curly quote characters normalised by `cleanText`. -/
def isCurlyQuote (c : Char) : Bool :=
  c = Char.ofNat 0x201C || c = Char.ofNat 0x201D ||
  c = Char.ofNat 0x2018 || c = Char.ofNat 0x2019

/-- `EnhancedNewsScraper.cleanText`: collapse whitespace runs to single
spaces, map the (already collapsed) line-break characters to spaces,
normalise curly quotes to `"` and the ellipsis character to `...`, and
trim.  A missing text is the empty string. -/
def cleanText (t : Str) : Str :=
  trimJs
    (((collapseWs t).map fun c =>
        if c = '\r' || c = '\n' || c = '\t' then ' ' else c).map
      (fun c => if isCurlyQuote c then '"' else c) |>.flatMap
      fun c => if c = Char.ofNat 0x2026 then "...".data else [c])

/-- `config.categoryWeights`. -/
def categoryWeights : List (Str × Int) :=
  [("regulatory".data, 15), ("enforcement".data, 12), ("safety".data, 10),
   ("technical".data, 8), ("industry".data, 6)]

/-- `config.categoryWeights[source.category] || 5`. -/
def categoryWeight (c : Str) : Int :=
  (categoryWeights.lookup c).getD 5

/-- `config.relevanceKeywords`: the fixed weighted keyword table. -/
def relevanceKeywords : List (Str × Int) :=
  [("chain of responsibility".data, 15), ("cor".data, 10), ("hvnl".data, 15),
   ("heavy vehicle national law".data, 15), ("nhvr".data, 12),
   ("enforcement".data, 10), ("compliance".data, 8), ("penalty".data, 8),
   ("court".data, 7), ("prosecution".data, 9), ("fine".data, 6),
   ("sentenced".data, 8), ("conviction".data, 7),
   ("fatigue".data, 8), ("mass".data, 6), ("load restraint".data, 7),
   ("maintenance".data, 5), ("defect".data, 6), ("roadworthy".data, 6),
   ("safety alert".data, 10), ("accident".data, 7), ("incident".data, 6),
   ("heavy vehicle".data, 6), ("truck".data, 4), ("trailer".data, 3),
   ("prime mover".data, 4), ("b-double".data, 5), ("road train".data, 5),
   ("transport".data, 3), ("freight".data, 4), ("logistics".data, 3),
   ("carrier".data, 4), ("operator".data, 3)]

/-- `EnhancedNewsScraper.calculateRelevanceScore`: base 3, plus
`floor(priority / 2)`, plus `floor(categoryWeight / 3)`, plus the weight of
every keyword occurring in the lowercased `title + ' ' + summary`, plus the
three content-quality bonuses, capped at 20. -/
def calculateRelevanceScore (title summary : Str) (src : Source) : Int :=
  let content := toLowerStr (title ++ ' ' :: summary)
  let base : Int := 3 + Int.fdiv src.priority 2 + Int.fdiv (categoryWeight src.category) 3
  let withKeywords := relevanceKeywords.foldl
    (fun acc kw => if containsSub content kw.1 then acc + kw.2 else acc) base
  let total := withKeywords
    + (if 200 < content.length then 2 else 0)
    + (if 30 < title.length ∧ title.length < 100 then 1 else 0)
    + (if 100 < summary.length then 1 else 0)
  min total 20

/-- The title-length clause of `validateArticleData`
(`contentFilters.minTitleLength = 15`, `maxTitleLength = 200`). -/
def titleLengthValid (title : Str) : Bool :=
  !(title.length < 15 || 200 < title.length)

/-- `config.scraping.maxArticlesPerSource`. -/
def maxArticlesPerSource : Nat := 20

/-- The `elements.each` body of `scrapeSource`: walk the matched elements,
keeping those the validator accepts, stopping once `articleCount` reaches
the per-source cap.  The element type and the validator are the parameters
the source supplies through `extractArticleData` / `validateArticleData`. -/
def collectValid {α : Type} (valid : α → Bool) (maxN : Nat) :
    List α → Nat → List α
  | [], _ => []
  | e :: es, cnt =>
    if maxN ≤ cnt then []
    else if valid e then e :: collectValid valid maxN es (cnt + 1)
    else collectValid valid maxN es cnt

/-- The selector-strategy loop of `scrapeSource` (lines 139-165): for each
selector in order, if it matches at least one element, run the extraction
pass; stop as soon as the accumulated article list is nonempty. -/
def scrapeStrategies {α : Type} (valid : α → Bool) :
    List (List α) → List α → List α
  | [], acc => acc
  | els :: rest, acc =>
    if 0 < els.length then
      let acc2 := acc ++ collectValid valid maxArticlesPerSource els 0
      if 0 < acc2.length then acc2 else scrapeStrategies valid rest acc2
    else scrapeStrategies valid rest acc

/-- `scrapeSource`, starting from the empty article list, with the page
presented as the element lists each selector strategy matches. -/
def scrapeSourceModel {α : Type} (valid : α → Bool)
    (strategies : List (List α)) : List α :=
  scrapeStrategies valid strategies []

/-- The title key of the scraper's `removeDuplicates`: lowercase, strip
non-alphanumerics, collapse whitespace, trim. -/
def titleKey (t : Str) : Str :=
  trimJs (collapseWs ((toLowerStr t).filter fun c => isAlnumAscii c || isWsJs c))

/-- `EnhancedNewsScraper.calculateSimilarity`: Jaccard similarity of the
sets of words longer than 3 characters (split on single spaces). -/
def calculateSimilarity (s1 s2 : Str) : ℚ :=
  let set1 := ((splitSpace s1).filter fun w => 3 < w.length).dedup
  let set2 := ((splitSpace s2).filter fun w => 3 < w.length).dedup
  let inter := set1.filter fun w => decide (w ∈ set2)
  let union := (set1 ++ set2).dedup
  if 0 < union.length then (inter.length : ℚ) / union.length else 0

/-- The three duplicate tests of the scraper's `removeDuplicates` against
the seen-URL and seen-title-key sets. -/
def isDupScraper (a : Article) (urls titles : List Str) : Bool :=
  decide (a.url ∈ urls) ||
  decide (titleKey a.title ∈ titles) ||
  titles.any fun t => decide (calculateSimilarity (titleKey a.title) t > 4 / 5)

/-- The scraper's duplicate relation between two articles: since
`seenUrls` and `seenTitles` hold exactly the URLs and title keys of the
accepted articles, an incoming article trips the three membership tests
exactly when some accepted article is related to it by URL equality,
title-key equality, or title-key similarity above 0.8. -/
def isDupOf (a u : Article) : Bool :=
  (a.url == u.url) ||
  (titleKey a.title == titleKey u.title) ||
  decide (calculateSimilarity (titleKey a.title) (titleKey u.title) > 4 / 5)

/-- The loop of the scraper's `removeDuplicates`, carrying the growing
`unique` list and the `seenUrls` / `seenTitles` sets. -/
def removeDuplicatesGo : List Article → List Article → List Str → List Str →
    List Article
  | [], uniq, _, _ => uniq
  | a :: rest, uniq, urls, titles =>
    if isDupScraper a urls titles then removeDuplicatesGo rest uniq urls titles
    else removeDuplicatesGo rest (uniq ++ [a]) (urls ++ [a.url])
      (titles ++ [titleKey a.title])

/-- `EnhancedNewsScraper.removeDuplicates`. -/
def removeDuplicates (articles : List Article) : List Article :=
  removeDuplicatesGo articles [] [] []

end EnhancedNewsScraper

namespace NewsletterGenerator

/-- One row of the `levenshteinDistance` matrix after the first: walk the
characters of `str1` with the previous row, carrying the diagonal, left and
upper entries. -/
def levRowGo (c2 : Char) : Str → List Nat → Nat → List Nat
  | [], _, _ => []
  | _ :: _, [], _ => []
  | c1 :: cs, diag :: rest, left =>
    let up := rest.headD 0
    let cur := if c1 = c2 then diag else min (min diag left) up + 1
    cur :: levRowGo c2 cs rest cur

/-- The next full row of the matrix: its first entry is the previous first
entry plus one (`matrix[i][0] = i`). -/
def levRow (s1 : Str) (prev : List Nat) (c2 : Char) : List Nat :=
  let first := prev.headD 0 + 1
  first :: levRowGo c2 s1 prev first

/-- `NewsletterGenerator.levenshteinDistance`: the standard
insert/delete/substitute dynamic program, identical to the source's matrix
computation. -/
def levenshteinDistance (s1 s2 : Str) : Nat :=
  (s2.foldl (levRow s1) (List.range (s1.length + 1))).getLastD 0

/-- `NewsletterGenerator.calculateTextSimilarity`: 0.7 times the Jaccard
similarity of the sets of words longer than 2 characters (split on
whitespace runs) plus 0.3 times the normalised Levenshtein similarity. -/
def calculateTextSimilarity (text1 text2 : Str) : ℚ :=
  let words1 := ((splitWs text1).filter fun w => 2 < w.length).dedup
  let words2 := ((splitWs text2).filter fun w => 2 < w.length).dedup
  let inter := words1.filter fun w => decide (w ∈ words2)
  let union := (words1 ++ words2).dedup
  let jaccardSimilarity : ℚ :=
    if 0 < union.length then (inter.length : ℚ) / union.length else 0
  let levenshteinSimilarity : ℚ :=
    1 - (levenshteinDistance text1 text2 : ℚ) / (max (max text1.length text2.length) 1)
  jaccardSimilarity * (7 / 10) + levenshteinSimilarity * (3 / 10)

/-- The stop-word set of `extractKeyPhrases`. -/
def stopWords : List Str :=
  ["the".data, "and".data, "or".data, "but".data, "in".data, "on".data,
   "at".data, "to".data, "for".data, "of".data, "with".data, "by".data,
   "is".data, "are".data, "was".data, "were".data, "been".data, "have".data,
   "has".data, "had".data, "will".data, "would".data, "could".data,
   "should".data, "may".data, "might".data, "can".data, "this".data,
   "that".data, "these".data, "those".data]

/-- `NewsletterGenerator.extractKeyPhrases`: for every window start `i`
with `i < words.length - 2`, keep the up-to-6-word phrase starting at `i`
whenever the 3-word phrase there has at least two non-stop-words. -/
def extractKeyPhrases (text : Str) : List Str :=
  let words := splitWs (toLowerStr text)
  (List.range (words.length - 2)).filterMap fun i =>
    let phrase := joinSpace ((words.drop i).take 3)
    let longPhrase := joinSpace ((words.drop i).take 6)
    let contentWords := (splitSpace phrase).filter fun w => decide (w ∉ stopWords)
    if 2 ≤ contentWords.length then some longPhrase else none

/-- `NewsletterGenerator.hasSignificantOverlap`: count the pairs of equal
phrases longer than 15 characters; the contents overlap when those pairs
exceed 30% of the larger phrase count. -/
def hasSignificantOverlap (content1 content2 : Str) : Bool :=
  let phrases1 := extractKeyPhrases content1
  let phrases2 := extractKeyPhrases content2
  let matchingPhrases := (phrases1.map fun p1 =>
    (phrases2.filter fun p2 => p1 = p2 && 15 < p1.length).length).sum
  let maxPhrases := max (max phrases1.length phrases2.length) 1
  decide ((matchingPhrases : ℚ) / maxPhrases > 3 / 10)

/-- The `safetyIndicators` keyword list of `categorizeArticle`. -/
def safetyIndicators : List Str :=
  ["accident".data, "fatality".data, "death".data, "injured".data,
   "crash".data, "collision".data, "safety alert".data, "urgent".data,
   "immediate".data, "critical".data, "emergency".data, "recall".data,
   "defect".data, "hazard".data, "dangerous".data, "risk".data]

/-- The `enforcementIndicators` keyword list of `categorizeArticle`. -/
def enforcementIndicators : List Str :=
  ["prosecution".data, "court".data, "sentenced".data, "fined".data,
   "penalty".data, "conviction".data, "charged".data, "pleaded".data,
   "guilty".data, "enforcement".data, "operation".data, "crackdown".data,
   "blitz".data, "compliance check".data]

/-- The `regulatoryIndicators` keyword list of `categorizeArticle`. -/
def regulatoryIndicators : List Str :=
  ["regulation".data, "law".data, "rule".data, "policy".data, "nhvr".data,
   "government".data, "consultation".data, "proposal".data,
   "amendment".data, "legislation".data, "standard".data,
   "requirement".data, "mandate".data]

/-- The `technicalIndicators` keyword list of `categorizeArticle`. -/
def technicalIndicators : List Str :=
  ["vehicle standard".data, "technical".data, "specification".data,
   "equipment".data, "modification".data, "upgrade".data,
   "maintenance".data, "inspection".data, "certification".data,
   "approval".data, "testing".data]

/-- The `wellnessIndicators` keyword list of `categorizeArticle`. -/
def wellnessIndicators : List Str :=
  ["driver".data, "fatigue".data, "wellness".data, "health".data,
   "mental health".data, "support".data, "culture".data, "workplace".data,
   "stress".data, "wellbeing".data]

/-- The five category keyword lists, in the construction order of the
`scores` object of `categorizeArticle`. -/
def categoryKeywordLists : List (Str × List Str) :=
  [("Safety Alert".data, safetyIndicators),
   ("Enforcement Action".data, enforcementIndicators),
   ("Regulatory Update".data, regulatoryIndicators),
   ("Technical Update".data, technicalIndicators),
   ("Driver Wellness".data, wellnessIndicators)]

/-- The lowercased `title + ' ' + (summary || '')` content of the
generator. -/
def genContent (a : Article) : Str :=
  toLowerStr (a.title ++ ' ' :: a.summary)

/-- The decision tail of `categorizeArticle`, as a function of the five
category scores: `Math.max` over the values, `'Industry News'` when the
maximum is zero, otherwise the first entry attaining the maximum
(`Object.entries(scores).find`). -/
def categorizePick (s1 s2 s3 s4 s5 : Nat) : Str :=
  let scores : List (Str × Nat) :=
    [("Safety Alert".data, s1), ("Enforcement Action".data, s2),
     ("Regulatory Update".data, s3), ("Technical Update".data, s4),
     ("Driver Wellness".data, s5)]
  let maxScore : Nat := scores.foldl (fun m q => max m q.2) 0
  if maxScore = 0 then "Industry News".data
  else ((findFirst (fun q => q.2 == maxScore) scores).map Prod.fst).getD
    "Industry News".data

/-- `NewsletterGenerator.categorizeArticle`: score the lowercased content
against the five keyword lists (one point per keyword occurring in it) and
pick as `categorizePick` does. -/
def categorizeArticle (a : Article) : Str :=
  categorizePick
    (SheetsManager.countTerms (genContent a) safetyIndicators)
    (SheetsManager.countTerms (genContent a) enforcementIndicators)
    (SheetsManager.countTerms (genContent a) regulatoryIndicators)
    (SheetsManager.countTerms (genContent a) technicalIndicators)
    (SheetsManager.countTerms (genContent a) wellnessIndicators)

/-- The `categoryPriority` table of `prioritizeByCategory`, in source
order. -/
def categoryPriorityTable : List (Str × ℚ) :=
  [("Safety Alert".data, 100), ("Enforcement Action".data, 90),
   ("Regulatory Update".data, 80), ("Technical Update".data, 70),
   ("Driver Wellness".data, 95), ("Industry News".data, 60)]

/-- `categoryPriority[article.category] || 50`. -/
def categoryScoreOf (c : Str) : ℚ :=
  (categoryPriorityTable.lookup c).getD 50

/-- The category actually used by `prioritizeByCategory`: the article's
own category, or `categorizeArticle` when that field is unset (falsy). -/
def effCategory (a : Article) : Str :=
  if a.category = [] then categorizeArticle a else a.category

/-- The mapping step of `prioritizeByCategory`: attach the effective
category, the category weight, and the composite score
`categoryScore * 0.7 + relevanceScore * 0.3`. -/
def scoreArticle (a : Article) : Article :=
  Article.mk a.title a.url a.summary (effCategory a) a.relevanceScore
    (categoryScoreOf (effCategory a) * (7 / 10) + a.relevanceScore * (3 / 10))
    (categoryScoreOf (effCategory a))

/-- Insert into a descending-sorted list, after every element of greater
or equal composite score: the position a stable descending sort (which
`Array.prototype.sort` is) gives an element arriving from the left. -/
def insertDesc (x : Article) : List Article → List Article
  | [] => [x]
  | y :: ys =>
    if y.compositeScore ≤ x.compositeScore then x :: y :: ys
    else y :: insertDesc x ys

/-- Stable descending sort by composite score, the effect of
`prioritized.sort((a, b) => b.compositeScore - a.compositeScore)`. -/
def sortDesc : List Article → List Article
  | [] => []
  | x :: xs => insertDesc x (sortDesc xs)

/-- `NewsletterGenerator.prioritizeByCategory`: score every article, then
sort descending by composite score. -/
def prioritizeByCategory (articles : List Article) : List Article :=
  sortDesc (articles.map scoreArticle)

/-- `title.toLowerCase().trim()`, the key of duplicate check 2. -/
def lowerTrim (t : Str) : Str := trimJs (toLowerStr t)

/-- The duplicate cascade of the generator's `removeDuplicates`, returning
the number of the first check that fires: 1 exact URL, 2 exact lowercased
trimmed title, 3 title similarity above 0.85, 4 content similarity above
0.75, 5 significant key-phrase overlap. -/
def dupCheck (cur ex : Article) : Option Nat :=
  if cur.url = ex.url then some 1
  else if lowerTrim cur.title = lowerTrim ex.title then some 2
  else if calculateTextSimilarity (toLowerStr cur.title) (toLowerStr ex.title)
      > 17 / 20 then some 3
  else if calculateTextSimilarity (genContent cur) (genContent ex)
      > 15 / 20 then some 4
  else if hasSignificantOverlap (genContent cur) (genContent ex) then some 5
  else none

/-- The loop of the generator's `removeDuplicates`: an incoming article is
dropped when any already accepted article triggers the cascade. -/
def removeDuplicatesGo : List Article → List Article → List Article
  | [], uniq => uniq
  | a :: rest, uniq =>
    if uniq.any (fun u => (dupCheck a u).isSome) then
      removeDuplicatesGo rest uniq
    else removeDuplicatesGo rest (uniq ++ [a])

/-- `NewsletterGenerator.removeDuplicates`. -/
def removeDuplicates (articles : List Article) : List Article :=
  removeDuplicatesGo articles []

/-- `NewsletterGenerator.getRecentArticles`, from the point where the
external store has answered (the Google-Sheets query is the external
collaborator; its result list is this model's input).  The generator-side
date filter is disabled in the source (`contemporaryArticles =
recentArticles`); when fewer than 3 articles arrive the function throws
inside its own `try` and the `catch` returns the empty list; otherwise it
prioritises and deduplicates. -/
def getRecentArticlesModel (fromStore : List Article) : List Article :=
  if fromStore.length < 3 then []
  else removeDuplicates (prioritizeByCategory fromStore)

/-- The content gate of `NewsletterGenerator.generateNewsletter`: fetch
the recent articles, throw the insufficient-content error when fewer than
3 remain, otherwise continue with the top 5 (the downstream rewriting,
HTML rendering and mailing are external to this model). -/
def generateNewsletterModel (fromStore : List Article) :
    Except Str (List Article) :=
  let recentArticles := getRecentArticlesModel fromStore
  if recentArticles.length < 3 then
    Except.error "Insufficient content".data
  else Except.ok (recentArticles.take 5)

end NewsletterGenerator

/-! ## Properties of `categorizePick` -/

namespace NewsletterGenerator

/-- All five category scores zero: the default category. -/
theorem categorizePick_zero : categorizePick 0 0 0 0 0 = "Industry News".data := by
  decide

/-- When the first score attains the maximum (and it is positive), the
first category wins. -/
theorem categorizePick_pos1 (s1 s2 s3 s4 s5 : Nat) (h2 : s2 ≤ s1)
    (h3 : s3 ≤ s1) (h4 : s4 ≤ s1) (h5 : s5 ≤ s1) (h0 : s1 ≠ 0) :
    categorizePick s1 s2 s3 s4 s5 = "Safety Alert".data := by
  have hM : max (max (max (max (max 0 s1) s2) s3) s4) s5 = s1 := by omega
  simp only [categorizePick, List.foldl, findFirst]
  rw [hM, if_neg h0, if_pos (by simp : (s1 == s1) = true)]
  rfl

/-- When the second score is the strict maximum, the second category
wins. -/
theorem categorizePick_pos2 (s1 s2 s3 s4 s5 : Nat) (h1 : s1 < s2)
    (h3 : s3 ≤ s2) (h4 : s4 ≤ s2) (h5 : s5 ≤ s2) :
    categorizePick s1 s2 s3 s4 s5 = "Enforcement Action".data := by
  have hM : max (max (max (max (max 0 s1) s2) s3) s4) s5 = s2 := by omega
  simp only [categorizePick, List.foldl, findFirst]
  rw [hM, if_neg (by omega : ¬s2 = 0),
    if_neg (by simp [Nat.beq_eq]; omega : ¬((s1 == s2) = true)),
    if_pos (by simp : (s2 == s2) = true)]
  rfl

/-- When the third score is the strict maximum, the third category
wins. -/
theorem categorizePick_pos3 (s1 s2 s3 s4 s5 : Nat) (h1 : s1 < s3)
    (h2 : s2 < s3) (h4 : s4 ≤ s3) (h5 : s5 ≤ s3) :
    categorizePick s1 s2 s3 s4 s5 = "Regulatory Update".data := by
  have hM : max (max (max (max (max 0 s1) s2) s3) s4) s5 = s3 := by omega
  simp only [categorizePick, List.foldl, findFirst]
  rw [hM, if_neg (by omega : ¬s3 = 0),
    if_neg (by simp [Nat.beq_eq]; omega : ¬((s1 == s3) = true)),
    if_neg (by simp [Nat.beq_eq]; omega : ¬((s2 == s3) = true)),
    if_pos (by simp : (s3 == s3) = true)]
  rfl

/-- When the fourth score is the strict maximum, the fourth category
wins. -/
theorem categorizePick_pos4 (s1 s2 s3 s4 s5 : Nat) (h1 : s1 < s4)
    (h2 : s2 < s4) (h3 : s3 < s4) (h5 : s5 ≤ s4) :
    categorizePick s1 s2 s3 s4 s5 = "Technical Update".data := by
  have hM : max (max (max (max (max 0 s1) s2) s3) s4) s5 = s4 := by omega
  simp only [categorizePick, List.foldl, findFirst]
  rw [hM, if_neg (by omega : ¬s4 = 0),
    if_neg (by simp [Nat.beq_eq]; omega : ¬((s1 == s4) = true)),
    if_neg (by simp [Nat.beq_eq]; omega : ¬((s2 == s4) = true)),
    if_neg (by simp [Nat.beq_eq]; omega : ¬((s3 == s4) = true)),
    if_pos (by simp : (s4 == s4) = true)]
  rfl

/-- When the fifth score is the strict maximum, the fifth category
wins. -/
theorem categorizePick_pos5 (s1 s2 s3 s4 s5 : Nat) (h1 : s1 < s5)
    (h2 : s2 < s5) (h3 : s3 < s5) (h4 : s4 < s5) :
    categorizePick s1 s2 s3 s4 s5 = "Driver Wellness".data := by
  have hM : max (max (max (max (max 0 s1) s2) s3) s4) s5 = s5 := by omega
  simp only [categorizePick, List.foldl, findFirst]
  rw [hM, if_neg (by omega : ¬s5 = 0),
    if_neg (by simp [Nat.beq_eq]; omega : ¬((s1 == s5) = true)),
    if_neg (by simp [Nat.beq_eq]; omega : ¬((s2 == s5) = true)),
    if_neg (by simp [Nat.beq_eq]; omega : ¬((s3 == s5) = true)),
    if_neg (by simp [Nat.beq_eq]; omega : ¬((s4 == s5) = true)),
    if_pos (by simp : (s5 == s5) = true)]
  rfl

end NewsletterGenerator

/-! ## Properties of the scraper's strategy loop -/

namespace EnhancedNewsScraper

/-- The extraction pass keeps at most `maxN - cnt` candidates. -/
theorem collectValid_length_le {α : Type} (valid : α → Bool) (maxN : Nat) :
    ∀ (l : List α) (cnt : Nat),
      (collectValid valid maxN l cnt).length ≤ maxN - cnt := by
  intro l
  induction l with
  | nil => intro cnt; simp [collectValid]
  | cons e es ih =>
    intro cnt
    unfold collectValid
    split_ifs with h1 h2
    · simp
    · have := ih (cnt + 1)
      simp only [List.length_cons]
      omega
    · have := ih cnt
      omega

/-- Unfolding equation of the strategy loop at a cons cell. -/
theorem scrapeStrategies_cons {α : Type} (valid : α → Bool) (els : List α)
    (rest : List (List α)) (acc : List α) :
    scrapeStrategies valid (els :: rest) acc =
      if 0 < els.length then
        (if 0 < (acc ++ collectValid valid maxArticlesPerSource els 0).length
         then acc ++ collectValid valid maxArticlesPerSource els 0
         else scrapeStrategies valid rest
           (acc ++ collectValid valid maxArticlesPerSource els 0))
      else scrapeStrategies valid rest acc := rfl

/-- Starting from the empty accumulator, the strategy loop returns either
nothing or exactly the extraction of one of the strategies. -/
theorem scrapeStrategies_from_nil {α : Type} (valid : α → Bool) :
    ∀ strats : List (List α),
      scrapeStrategies valid strats [] = [] ∨
      ∃ els ∈ strats, scrapeStrategies valid strats [] =
        collectValid valid maxArticlesPerSource els 0 := by
  intro strats
  induction strats with
  | nil => exact Or.inl rfl
  | cons els rest ih =>
    rw [scrapeStrategies_cons]
    by_cases h1 : 0 < els.length
    · rw [if_pos h1]
      simp only [List.nil_append]
      by_cases h2 : 0 < (collectValid valid maxArticlesPerSource els 0).length
      · rw [if_pos h2]
        exact Or.inr ⟨els, List.mem_cons_self _ _, rfl⟩
      · rw [if_neg h2]
        have hnil : collectValid valid maxArticlesPerSource els 0 = [] :=
          List.eq_nil_of_length_eq_zero (by omega)
        rw [hnil]
        rcases ih with h | ⟨e, he, heq⟩
        · exact Or.inl h
        · exact Or.inr ⟨e, List.mem_cons_of_mem _ he, heq⟩
    · rw [if_neg h1]
      rcases ih with h | ⟨e, he, heq⟩
      · exact Or.inl h
      · exact Or.inr ⟨e, List.mem_cons_of_mem _ he, heq⟩

end EnhancedNewsScraper

/-! ## Properties of the two deduplication loops -/

namespace NewsletterGenerator

/-- The generator's dedup loop only ever appends to the accepted list,
and what it appends is a sublist of the remaining input. -/
theorem removeDuplicatesGo_append : ∀ (rest uniq : List Article),
    ∃ s, removeDuplicatesGo rest uniq = uniq ++ s ∧ s.Sublist rest := by
  intro rest
  induction rest with
  | nil => exact fun uniq => ⟨[], by simp [removeDuplicatesGo], List.nil_sublist _⟩
  | cons a rest ih =>
    intro uniq
    unfold removeDuplicatesGo
    by_cases h : uniq.any (fun u => (dupCheck a u).isSome) = true
    · rw [if_pos h]
      obtain ⟨s, heq, hsub⟩ := ih uniq
      exact ⟨s, heq, hsub.cons a⟩
    · rw [if_neg h]
      obtain ⟨s, heq, hsub⟩ := ih (uniq ++ [a])
      exact ⟨a :: s, by rw [heq, List.append_assoc]; rfl, hsub.cons₂ a⟩

/-- Every input article either survives the generator's dedup loop or is
judged a duplicate of one of the retained articles. -/
theorem removeDuplicatesGo_cover : ∀ (rest uniq : List Article), ∀ a ∈ rest,
    a ∈ removeDuplicatesGo rest uniq ∨
    ∃ u ∈ removeDuplicatesGo rest uniq, (dupCheck a u).isSome = true := by
  intro rest
  induction rest with
  | nil => intro uniq a ha; cases ha
  | cons b rest ih =>
    intro uniq a ha
    unfold removeDuplicatesGo
    by_cases h : uniq.any (fun u => (dupCheck b u).isSome) = true
    · rw [if_pos h]
      rcases List.mem_cons.mp ha with rfl | ha2
      · obtain ⟨u, hu, hdup⟩ := List.any_eq_true.mp h
        obtain ⟨s, heq, _⟩ := removeDuplicatesGo_append rest uniq
        exact Or.inr ⟨u, by rw [heq]; exact List.mem_append_left _ hu, hdup⟩
      · exact ih uniq a ha2
    · rw [if_neg h]
      rcases List.mem_cons.mp ha with rfl | ha2
      · obtain ⟨s, heq, _⟩ := removeDuplicatesGo_append rest (uniq ++ [a])
        refine Or.inl ?_
        rw [heq]
        exact List.mem_append_left _ (List.mem_append_right _ (by simp))
      · exact ih (uniq ++ [b]) a ha2

end NewsletterGenerator

namespace EnhancedNewsScraper

/-- With the seen-sets tracking the accepted articles, the scraper's
three membership tests fire exactly when some accepted article is a
duplicate of the incoming one. -/
theorem isDupScraper_iff (a : Article) (uniq : List Article) :
    isDupScraper a (uniq.map fun u => u.url)
      (uniq.map fun u => titleKey u.title) = true ↔
    ∃ u ∈ uniq, isDupOf a u = true := by
  simp only [isDupScraper, isDupOf, Bool.or_eq_true, decide_eq_true_eq,
    beq_iff_eq, List.any_eq_true, List.mem_map]
  constructor
  · rintro ((⟨u, hu, he⟩ | ⟨u, hu, he⟩) | ⟨t, ⟨u, hu, rfl⟩, hsim⟩)
    · exact ⟨u, hu, Or.inl (Or.inl he.symm)⟩
    · exact ⟨u, hu, Or.inl (Or.inr he.symm)⟩
    · exact ⟨u, hu, Or.inr hsim⟩
  · rintro ⟨u, hu, (he | he) | hsim⟩
    · exact Or.inl (Or.inl ⟨u, hu, he.symm⟩)
    · exact Or.inl (Or.inr ⟨u, hu, he.symm⟩)
    · exact Or.inr ⟨titleKey u.title, ⟨u, hu, rfl⟩, hsim⟩

/-- The scraper's dedup loop only ever appends to the accepted list, and
what it appends is a sublist of the remaining input. -/
theorem scraperDedupGo_append : ∀ (rest uniq : List Article)
    (urls titles : List Str),
    ∃ s, removeDuplicatesGo rest uniq urls titles = uniq ++ s ∧
      s.Sublist rest := by
  intro rest
  induction rest with
  | nil =>
    exact fun uniq urls titles =>
      ⟨[], by simp [removeDuplicatesGo], List.nil_sublist _⟩
  | cons a rest ih =>
    intro uniq urls titles
    unfold removeDuplicatesGo
    by_cases h : isDupScraper a urls titles = true
    · rw [if_pos h]
      obtain ⟨s, heq, hsub⟩ := ih uniq urls titles
      exact ⟨s, heq, hsub.cons a⟩
    · rw [if_neg h]
      obtain ⟨s, heq, hsub⟩ := ih (uniq ++ [a]) (urls ++ [a.url])
        (titles ++ [titleKey a.title])
      exact ⟨a :: s, by rw [heq, List.append_assoc]; rfl, hsub.cons₂ a⟩

/-- Every input article either survives the scraper's dedup loop or is a
duplicate (by URL, title key, or title-key similarity) of one of the
retained articles. -/
theorem scraperDedupGo_cover : ∀ (rest uniq : List Article), ∀ a ∈ rest,
    a ∈ removeDuplicatesGo rest uniq (uniq.map fun u => u.url)
        (uniq.map fun u => titleKey u.title) ∨
    ∃ u ∈ removeDuplicatesGo rest uniq (uniq.map fun u => u.url)
        (uniq.map fun u => titleKey u.title), isDupOf a u = true := by
  intro rest
  induction rest with
  | nil => intro uniq a ha; cases ha
  | cons b rest ih =>
    intro uniq a ha
    unfold removeDuplicatesGo
    by_cases h : isDupScraper b (uniq.map fun u => u.url)
        (uniq.map fun u => titleKey u.title) = true
    · rw [if_pos h]
      rcases List.mem_cons.mp ha with rfl | ha2
      · obtain ⟨u, hu, hdup⟩ := (isDupScraper_iff a uniq).mp h
        obtain ⟨s, heq, _⟩ := scraperDedupGo_append rest uniq
          (uniq.map fun u => u.url) (uniq.map fun u => titleKey u.title)
        exact Or.inr ⟨u, by rw [heq]; exact List.mem_append_left _ hu, hdup⟩
      · exact ih uniq a ha2
    · rw [if_neg h]
      have hu2 : (uniq.map fun u => u.url) ++ [b.url] =
          (uniq ++ [b]).map fun u => u.url := by simp
      have ht2 : (uniq.map fun u => titleKey u.title) ++ [titleKey b.title] =
          (uniq ++ [b]).map fun u => titleKey u.title := by simp
      rw [hu2, ht2]
      rcases List.mem_cons.mp ha with rfl | ha2
      · obtain ⟨s, heq, _⟩ := scraperDedupGo_append rest (uniq ++ [a])
          ((uniq ++ [a]).map fun u => u.url)
          ((uniq ++ [a]).map fun u => titleKey u.title)
        refine Or.inl ?_
        rw [heq]
        exact List.mem_append_left _ (List.mem_append_right _ (by simp))
      · exact ih (uniq ++ [b]) a ha2

end EnhancedNewsScraper

/-! ## Definitions written from the spec's words, for comparison -/

/-- The text normalization as the spec words it for the dedup key:
lowercase, whitespace collapse, quote/ellipsis normalization, trim.  The
pipeline's own `cleanText` differs in that it never lowercases. -/
def specNormalizeTitle (t : Str) : Str :=
  toLowerStr (EnhancedNewsScraper.cleanText t)

/-- The word set of a title as the claim words it for C2: the words of the
title excluding those of length at most 3. -/
def specWordSetGT3 (t : Str) : Finset Str :=
  ((splitWs t).filter fun w => 3 < w.length).toFinset

/-- The word set the generator's similarity actually uses: the words of
length greater than 2. -/
def specWordSetGT2 (t : Str) : Finset Str :=
  ((splitWs t).filter fun w => 2 < w.length).toFinset

/-- Jaccard similarity of two finite word sets, 0 when both are empty. -/
def finsetJaccard (A B : Finset Str) : ℚ :=
  if (A ∪ B).card = 0 then 0 else ((A ∩ B).card : ℚ) / ((A ∪ B).card)

/-- The claim's title-similarity formula for C2, exactly as worded:
`0.7 * Jaccard(wordset t1, wordset t2) + 0.3 * (1 - levenshtein(t1, t2) /
max(|t1|, |t2|, 1))` with word sets excluding words of length at most 3. -/
def specClaimTitleSimilarity (t1 t2 : Str) : ℚ :=
  (7 / 10) * finsetJaccard (specWordSetGT3 t1) (specWordSetGT3 t2) +
  (3 / 10) * (1 - (NewsletterGenerator.levenshteinDistance t1 t2 : ℚ) /
    (max (max t1.length t2.length) 1))

/-- The amended title-similarity formula: identical except that the word
sets exclude only the words of length at most 2, as the code does. -/
def specAmendedTitleSimilarity (t1 t2 : Str) : ℚ :=
  (7 / 10) * finsetJaccard (specWordSetGT2 t1) (specWordSetGT2 t2) +
  (3 / 10) * (1 - (NewsletterGenerator.levenshteinDistance t1 t2 : ℚ) /
    (max (max t1.length t2.length) 1))

/-! ## Claim C1: stability of the content hash -/

/-- Claim C1 as stated is false on the code: the two titles below are
equal after the claimed normalization (lowercase, whitespace collapse,
quote/ellipsis normalization, trim), yet `generateHash` gives them
different hashes when saving, and `saveArticles` does not skip the
second article even though the first one's hash is already in the
archive. -/
theorem C1_counterexample :
    specNormalizeTitle "NHVR Alert".data = specNormalizeTitle "nhvr alert".data
    ∧ SheetsManager.generateHash ("NHVR Alert".data ++ "u".data) ≠
      SheetsManager.generateHash ("nhvr alert".data ++ "u".data)
    ∧ SheetsManager.saveArticles
        [SheetsManager.generateHash ("NHVR Alert".data ++ "u".data)]
        [Article.mk "nhvr alert".data "u".data [] [] 0 0 0] =
      [Article.mk "nhvr alert".data "u".data [] [] 0 0 0] := by
  refine ⟨by decide, by decide, by decide⟩

/-- Claim C1, amended: the content hash is a function of the `(title,
url)` pair normalized by the pipeline's `cleanText` (whitespace collapse,
quote and ellipsis normalization, trim — but no lowercasing): equal
normalized titles with equal URLs hash identically; `saveArticles` keeps
exactly the articles whose hash is not among the archive's existing
hashes, so an article whose hash is already archived is skipped. -/
theorem C1_theorem :
    (∀ t1 t2 u : Str, EnhancedNewsScraper.cleanText t1 = EnhancedNewsScraper.cleanText t2 →
      SheetsManager.generateHash (EnhancedNewsScraper.cleanText t1 ++ u) =
        SheetsManager.generateHash (EnhancedNewsScraper.cleanText t2 ++ u))
    ∧ (∀ (existing : List Str) (arts : List Article),
        SheetsManager.saveArticles existing arts =
          arts.filter fun a =>
            !decide (SheetsManager.generateHash (a.title ++ a.url) ∈ existing))
    ∧ (∀ (existing : List Str) (a : Article),
        SheetsManager.generateHash (a.title ++ a.url) ∈ existing →
        SheetsManager.saveArticles existing [a] = []) := by
  refine ⟨fun t1 t2 u h => by rw [h], fun existing arts => ?_, fun existing a h => ?_⟩
  · induction arts with
    | nil => rfl
    | cons a rest ih =>
      by_cases h : SheetsManager.generateHash (a.title ++ a.url) ∈ existing <;>
        simp [SheetsManager.saveArticles, h, ih]
  · simp [SheetsManager.saveArticles, h]

/-- The skip clause of `C1_theorem` at a concrete archived hash. -/
theorem C1_witness :
    SheetsManager.saveArticles
      [SheetsManager.generateHash ("nhvr alert".data ++ "u".data)]
      [Article.mk "nhvr alert".data "u".data [] [] 0 0 0] = [] :=
  C1_theorem.2.2 _ (Article.mk "nhvr alert".data "u".data [] [] 0 0 0)
    (by decide)

/-! ## Claim C2: the in-batch title-similarity measure -/

/-- The list computation of an intersection size inside the similarity
functions equals the cardinality of the intersection of the word sets. -/
theorem filter_dedup_length_eq_card_inter (l1 l2 : List Str) :
    ((l1.dedup.filter fun w => decide (w ∈ l2.dedup)).length : ℚ) =
      ((l1.toFinset ∩ l2.toFinset).card : ℚ) := by
  have hnd : (l1.dedup.filter fun w => decide (w ∈ l2.dedup)).Nodup :=
    l1.nodup_dedup.filter _
  have hts : (l1.dedup.filter fun w => decide (w ∈ l2.dedup)).toFinset =
      l1.toFinset ∩ l2.toFinset := by
    ext x
    simp [List.mem_toFinset, List.mem_filter, List.mem_dedup, Finset.mem_inter]
  rw [← List.toFinset_card_of_nodup hnd, hts]

/-- Deduplicating a list does not change its finset of elements. -/
theorem toFinset_dedup_eq (l : List Str) : l.dedup.toFinset = l.toFinset := by
  ext x
  simp

/-- The list computation of a union size inside the similarity functions
equals the cardinality of the union of the word sets. -/
theorem dedup_append_length_eq_card_union_nat (l1 l2 : List Str) :
    ((l1.dedup ++ l2.dedup).dedup).length =
      (l1.toFinset ∪ l2.toFinset).card := by
  rw [← List.card_toFinset, List.toFinset_append, toFinset_dedup_eq,
    toFinset_dedup_eq]

/-- Claim C2 as stated is false on the code: on the titles `new law` and
`old law` the generator's similarity (which keeps words of length 3) is
17/42, while the claimed formula (whose word sets exclude words of length
at most 3, so lose the word `law`) gives 6/35. -/
theorem C2_counterexample :
    NewsletterGenerator.calculateTextSimilarity "new law".data "old law".data = 17 / 42
    ∧ specClaimTitleSimilarity "new law".data "old law".data = 6 / 35
    ∧ (17 / 42 : ℚ) ≠ 6 / 35 := by
  refine ⟨by with_unfolding_all decide, by with_unfolding_all decide,
    by with_unfolding_all decide⟩

/-- Claim C2, amended: the title-similarity value used by in-batch
deduplication equals `0.7 * Jaccard(wordset t1, wordset t2) + 0.3 * (1 -
levenshtein(t1, t2) / max(|t1|, |t2|, 1))` where each word set excludes
the words of length at most 2 (not 3); the title-similarity check of the
duplicate cascade judges an incoming article a duplicate of an accepted
one exactly when the earlier exact-URL and exact-title checks fail and
this value on the lowercased titles exceeds 0.85. -/
theorem C2_theorem :
    (∀ t1 t2 : Str, NewsletterGenerator.calculateTextSimilarity t1 t2 =
      specAmendedTitleSimilarity t1 t2)
    ∧ (∀ cur ex : Article, NewsletterGenerator.dupCheck cur ex = some 3 ↔
        (cur.url ≠ ex.url ∧
         NewsletterGenerator.lowerTrim cur.title ≠ NewsletterGenerator.lowerTrim ex.title ∧
         specAmendedTitleSimilarity (toLowerStr cur.title) (toLowerStr ex.title)
           > 17 / 20)) := by
  have hsim : ∀ t1 t2 : Str, NewsletterGenerator.calculateTextSimilarity t1 t2 =
      specAmendedTitleSimilarity t1 t2 := by
    intro t1 t2
    simp only [NewsletterGenerator.calculateTextSimilarity,
      specAmendedTitleSimilarity, finsetJaccard, specWordSetGT2]
    rw [filter_dedup_length_eq_card_inter, dedup_append_length_eq_card_union_nat]
    rcases Nat.eq_zero_or_pos
        ((((splitWs t1).filter fun w : Str => decide (2 < w.length)).toFinset ∪
          ((splitWs t2).filter fun w : Str => decide (2 < w.length)).toFinset).card) with h | h
    · rw [h]
      simp only [lt_self_iff_false, if_false, eq_self_iff_true, if_true,
        Nat.cast_zero]
      ring
    · rw [if_pos h, if_neg (by omega)]
      ring
  refine ⟨hsim, fun cur ex => ?_⟩
  unfold NewsletterGenerator.dupCheck
  rw [hsim]
  split_ifs with h1 h2 h3 h4 h5 <;> simp_all

/-- The title-similarity clause of `C2_theorem` firing at a concrete pair
of near-identical titles. -/
theorem C2_witness :
    NewsletterGenerator.dupCheck
      (Article.mk "nhvr sets tough new fatigue rules for truck operators".data
        "u1".data [] [] 0 0 0)
      (Article.mk "nhvr sets tough new fatigue rules for truck operators.".data
        "u2".data [] [] 0 0 0) = some 3 :=
  (C2_theorem.2 _ _).mpr
    ⟨by decide, by decide, by with_unfolding_all decide⟩

/-! ## Claim C3: category assignment -/

/-- Claim C3 as stated is false on the code: on the article below the
Safety Alert and Enforcement Action scores tie at the maximum 1 (every
list scores at most 1), yet `categorizeArticle` returns `Safety Alert`,
not the claimed tie-default `Industry News`. -/
theorem C3_counterexample :
    SheetsManager.countTerms
        (NewsletterGenerator.genContent (Article.mk "accident court".data "u".data [] [] 0 0 0))
        NewsletterGenerator.safetyIndicators = 1
    ∧ SheetsManager.countTerms
        (NewsletterGenerator.genContent (Article.mk "accident court".data "u".data [] [] 0 0 0))
        NewsletterGenerator.enforcementIndicators = 1
    ∧ (∀ p ∈ NewsletterGenerator.categoryKeywordLists,
        SheetsManager.countTerms
          (NewsletterGenerator.genContent (Article.mk "accident court".data "u".data [] [] 0 0 0))
          p.2 ≤ 1)
    ∧ NewsletterGenerator.categorizeArticle
        (Article.mk "accident court".data "u".data [] [] 0 0 0) = "Safety Alert".data
    ∧ "Safety Alert".data ≠ "Industry News".data := by
  refine ⟨by decide, by decide, by decide, by decide, by decide⟩

/-- Claim C3, amended: `categorize` scores the lowercased title+summary
against the five fixed category keyword lists (one point per keyword hit
per list); a category with the strictly highest score is returned, and
when all five scores are zero the result is `Industry News` — but a tie
for the highest positive score resolves to the earliest tied category in
the fixed order (Safety Alert, Enforcement Action, Regulatory Update,
Technical Update, Driver Wellness), not to `Industry News`. -/
theorem C3_theorem :
    ∀ a : Article,
      ((∀ p ∈ NewsletterGenerator.categoryKeywordLists,
          SheetsManager.countTerms (NewsletterGenerator.genContent a) p.2 = 0) →
        NewsletterGenerator.categorizeArticle a = "Industry News".data)
      ∧ (∀ p ∈ NewsletterGenerator.categoryKeywordLists,
          (∀ q ∈ NewsletterGenerator.categoryKeywordLists, q.1 ≠ p.1 →
            SheetsManager.countTerms (NewsletterGenerator.genContent a) q.2 <
              SheetsManager.countTerms (NewsletterGenerator.genContent a) p.2) →
          NewsletterGenerator.categorizeArticle a = p.1) := by
  intro a
  set c := NewsletterGenerator.genContent a with hc
  constructor
  · intro h
    have h1 := h _ (show ("Safety Alert".data, NewsletterGenerator.safetyIndicators) ∈
      NewsletterGenerator.categoryKeywordLists by simp [NewsletterGenerator.categoryKeywordLists])
    have h2 := h _ (show ("Enforcement Action".data, NewsletterGenerator.enforcementIndicators) ∈
      NewsletterGenerator.categoryKeywordLists by simp [NewsletterGenerator.categoryKeywordLists])
    have h3 := h _ (show ("Regulatory Update".data, NewsletterGenerator.regulatoryIndicators) ∈
      NewsletterGenerator.categoryKeywordLists by simp [NewsletterGenerator.categoryKeywordLists])
    have h4 := h _ (show ("Technical Update".data, NewsletterGenerator.technicalIndicators) ∈
      NewsletterGenerator.categoryKeywordLists by simp [NewsletterGenerator.categoryKeywordLists])
    have h5 := h _ (show ("Driver Wellness".data, NewsletterGenerator.wellnessIndicators) ∈
      NewsletterGenerator.categoryKeywordLists by simp [NewsletterGenerator.categoryKeywordLists])
    simp only at h1 h2 h3 h4 h5
    unfold NewsletterGenerator.categorizeArticle
    rw [← hc, h1, h2, h3, h4, h5]
    exact NewsletterGenerator.categorizePick_zero
  · intro p hp hstrict
    simp only [NewsletterGenerator.categoryKeywordLists, List.mem_cons,
      List.not_mem_nil, or_false] at hp
    have hmem : ∀ q : Str × List Str, q ∈ NewsletterGenerator.categoryKeywordLists ↔
        q = ("Safety Alert".data, NewsletterGenerator.safetyIndicators) ∨
        q = ("Enforcement Action".data, NewsletterGenerator.enforcementIndicators) ∨
        q = ("Regulatory Update".data, NewsletterGenerator.regulatoryIndicators) ∨
        q = ("Technical Update".data, NewsletterGenerator.technicalIndicators) ∨
        q = ("Driver Wellness".data, NewsletterGenerator.wellnessIndicators) := by
      intro q
      simp [NewsletterGenerator.categoryKeywordLists]
    unfold NewsletterGenerator.categorizeArticle
    rw [← hc]
    rcases hp with rfl | rfl | rfl | rfl | rfl
    · have g2 := hstrict _ ((hmem _).mpr (Or.inr (Or.inl rfl))) (by decide)
      have g3 := hstrict _ ((hmem _).mpr (Or.inr (Or.inr (Or.inl rfl)))) (by decide)
      have g4 := hstrict _ ((hmem _).mpr (Or.inr (Or.inr (Or.inr (Or.inl rfl))))) (by decide)
      have g5 := hstrict _ ((hmem _).mpr (Or.inr (Or.inr (Or.inr (Or.inr rfl))))) (by decide)
      simp only at g2 g3 g4 g5
      exact NewsletterGenerator.categorizePick_pos1 _ _ _ _ _
        (le_of_lt g2) (le_of_lt g3) (le_of_lt g4) (le_of_lt g5) (by omega)
    · have g1 := hstrict _ ((hmem _).mpr (Or.inl rfl)) (by decide)
      have g3 := hstrict _ ((hmem _).mpr (Or.inr (Or.inr (Or.inl rfl)))) (by decide)
      have g4 := hstrict _ ((hmem _).mpr (Or.inr (Or.inr (Or.inr (Or.inl rfl))))) (by decide)
      have g5 := hstrict _ ((hmem _).mpr (Or.inr (Or.inr (Or.inr (Or.inr rfl))))) (by decide)
      simp only at g1 g3 g4 g5
      exact NewsletterGenerator.categorizePick_pos2 _ _ _ _ _
        g1 (le_of_lt g3) (le_of_lt g4) (le_of_lt g5)
    · have g1 := hstrict _ ((hmem _).mpr (Or.inl rfl)) (by decide)
      have g2 := hstrict _ ((hmem _).mpr (Or.inr (Or.inl rfl))) (by decide)
      have g4 := hstrict _ ((hmem _).mpr (Or.inr (Or.inr (Or.inr (Or.inl rfl))))) (by decide)
      have g5 := hstrict _ ((hmem _).mpr (Or.inr (Or.inr (Or.inr (Or.inr rfl))))) (by decide)
      simp only at g1 g2 g4 g5
      exact NewsletterGenerator.categorizePick_pos3 _ _ _ _ _
        g1 g2 (le_of_lt g4) (le_of_lt g5)
    · have g1 := hstrict _ ((hmem _).mpr (Or.inl rfl)) (by decide)
      have g2 := hstrict _ ((hmem _).mpr (Or.inr (Or.inl rfl))) (by decide)
      have g3 := hstrict _ ((hmem _).mpr (Or.inr (Or.inr (Or.inl rfl)))) (by decide)
      have g5 := hstrict _ ((hmem _).mpr (Or.inr (Or.inr (Or.inr (Or.inr rfl))))) (by decide)
      simp only at g1 g2 g3 g5
      exact NewsletterGenerator.categorizePick_pos4 _ _ _ _ _
        g1 g2 g3 (le_of_lt g5)
    · have g1 := hstrict _ ((hmem _).mpr (Or.inl rfl)) (by decide)
      have g2 := hstrict _ ((hmem _).mpr (Or.inr (Or.inl rfl))) (by decide)
      have g3 := hstrict _ ((hmem _).mpr (Or.inr (Or.inr (Or.inl rfl)))) (by decide)
      have g4 := hstrict _ ((hmem _).mpr (Or.inr (Or.inr (Or.inr (Or.inl rfl))))) (by decide)
      simp only at g1 g2 g3 g4
      exact NewsletterGenerator.categorizePick_pos5 _ _ _ _ _ g1 g2 g3 g4

/-- The strict-highest clause of `C3_theorem` at a concrete article whose
only keyword hit is `prosecution`. -/
theorem C3_witness :
    NewsletterGenerator.categorizeArticle
      (Article.mk "prosecution outcome".data "u".data [] [] 0 0 0) =
      "Enforcement Action".data :=
  (C3_theorem _).2 ("Enforcement Action".data, NewsletterGenerator.enforcementIndicators)
    (by simp [NewsletterGenerator.categoryKeywordLists])
    (by decide)

/-! ## Properties of the stable descending sort -/

namespace NewsletterGenerator

/-- Inserting into the sorted list permutes with consing. -/
theorem insertDesc_perm (x : Article) : ∀ l : List Article,
    List.Perm (insertDesc x l) (x :: l)
  | [] => List.Perm.refl _
  | y :: ys => by
    unfold insertDesc
    split_ifs with h
    · exact List.Perm.refl _
    · exact ((insertDesc_perm x ys).cons y).trans (List.Perm.swap x y ys)

/-- Inserting into a descending-sorted list keeps it descending. -/
theorem insertDesc_pairwise (x : Article) : ∀ l : List Article,
    l.Pairwise (fun a b => b.compositeScore ≤ a.compositeScore) →
    (insertDesc x l).Pairwise (fun a b => b.compositeScore ≤ a.compositeScore)
  | [], _ => by simp [insertDesc]
  | y :: ys, h => by
    rw [List.pairwise_cons] at h
    obtain ⟨hy, hys⟩ := h
    unfold insertDesc
    split_ifs with hcmp
    · rw [List.pairwise_cons]
      refine ⟨fun b hb => ?_, List.pairwise_cons.mpr ⟨hy, hys⟩⟩
      rcases List.mem_cons.mp hb with rfl | hb
      · exact hcmp
      · exact le_trans (hy b hb) hcmp
    · rw [List.pairwise_cons]
      refine ⟨fun b hb => ?_, insertDesc_pairwise x ys hys⟩
      rcases List.mem_cons.mp ((insertDesc_perm x ys).mem_iff.mp hb) with rfl | hb
      · exact le_of_lt (lt_of_not_le hcmp)
      · exact hy b hb

/-- The stable descending sort permutes its input. -/
theorem sortDesc_perm : ∀ l : List Article, List.Perm (sortDesc l) l
  | [] => List.Perm.refl _
  | x :: xs => ((insertDesc_perm x (sortDesc xs)).trans
      ((sortDesc_perm xs).cons x))

/-- The stable descending sort sorts by non-increasing composite score. -/
theorem sortDesc_pairwise : ∀ l : List Article,
    (sortDesc l).Pairwise (fun a b => b.compositeScore ≤ a.compositeScore)
  | [] => List.Pairwise.nil
  | x :: xs => insertDesc_pairwise x (sortDesc xs) (sortDesc_pairwise xs)

end NewsletterGenerator

/-! ## Claim C4: segment tagging -/

/-- Claim C4 as stated is false on the code: the article below contains
`chain of responsibility` and no driver keyword, but that is its only pro
hit, so the pro count (1) does not exceed the driver count (0) by more
than 1 and `determineSegmentTag` returns `both`, not the claimed
`pro`. -/
theorem C4_counterexample :
    containsSub
        (SheetsManager.segContent
          (Article.mk "Chain of responsibility explained".data "u".data [] [] 0 0 0))
        "chain of responsibility".data = true
    ∧ SheetsManager.driverScore
        (Article.mk "Chain of responsibility explained".data "u".data [] [] 0 0 0) = 0
    ∧ SheetsManager.determineSegmentTag
        (Article.mk "Chain of responsibility explained".data "u".data [] [] 0 0 0) =
      "both".data
    ∧ "both".data ≠ "pro".data := by
  refine ⟨by decide, by decide, by decide, by decide⟩

/-- Claim C4, amended: an article whose pro-keyword hit count equals its
driver-keyword hit count is tagged `both`; an article containing `chain of
responsibility` and no driver keyword is tagged `pro` only when it also
matches at least one further pro keyword (the tag is `pro` exactly when
the pro count exceeds the driver count by more than 1). -/
theorem C4_theorem :
    ∀ a : Article,
      (SheetsManager.proScore a = SheetsManager.driverScore a →
        SheetsManager.determineSegmentTag a = "both".data)
      ∧ (containsSub (SheetsManager.segContent a) "chain of responsibility".data = true →
          SheetsManager.driverScore a = 0 → 2 ≤ SheetsManager.proScore a →
          SheetsManager.determineSegmentTag a = "pro".data)
      ∧ (SheetsManager.determineSegmentTag a = "pro".data ↔
          SheetsManager.driverScore a + 1 < SheetsManager.proScore a) := by
  intro a
  refine ⟨fun h => ?_, fun _ hd hp => ?_, ?_⟩
  · unfold SheetsManager.determineSegmentTag
    rw [if_neg (by omega), if_neg (by omega)]
  · unfold SheetsManager.determineSegmentTag
    rw [if_pos (by omega)]
  · unfold SheetsManager.determineSegmentTag
    constructor
    · intro h
      by_contra hn
      rw [if_neg hn] at h
      split_ifs at h <;> simp_all
    · intro h
      rw [if_pos h]

/-- The `pro` clause of `C4_theorem` at an article containing `chain of
responsibility` together with a second pro keyword and no driver
keyword. -/
theorem C4_witness :
    SheetsManager.determineSegmentTag
      (Article.mk "Chain of responsibility compliance update".data "u".data [] [] 0 0 0) =
      "pro".data :=
  (C4_theorem _).2.1 (by decide) (by decide) (by decide)

/-! ## Claim C5: composite ranking -/

/-- Claim C5 as stated is false on one point: an article with category
weight 100 and relevance 5 has composite score `100 * 0.7 + 5 * 0.3 =
71.5`, not the 73.5 the claim asserts. -/
theorem C5_counterexample :
    (NewsletterGenerator.scoreArticle
        (Article.mk "safety one".data "w1".data [] "Safety Alert".data 5 0 0)).compositeScore
      = 143 / 2
    ∧ ((143 : ℚ) / 2) ≠ 147 / 2 := by
  refine ⟨by with_unfolding_all decide, by with_unfolding_all decide⟩

/-- Claim C5, amended: `rank` assigns each article a composite score of
`categoryPriorityWeight * 0.7 + relevanceScore * 0.3`, with weights Safety
Alert = 100, Driver Wellness = 95, Enforcement Action = 90, Regulatory
Update = 80, Technical Update = 70, Industry News = 60 and 50 for any
other category, and returns the scored list sorted in non-increasing
composite-score order (a stable sort, so ties keep input order); in
particular an article with category weight 100 and relevance 5 (composite
71.5 — not 73.5) is ordered before one with category weight 60 and
relevance 20 (composite 48). -/
theorem C5_theorem :
    (∀ arts : List Article,
      (NewsletterGenerator.prioritizeByCategory arts).Pairwise
        (fun a b => b.compositeScore ≤ a.compositeScore)
      ∧ List.Perm (NewsletterGenerator.prioritizeByCategory arts)
          (arts.map NewsletterGenerator.scoreArticle))
    ∧ (∀ a : Article, (NewsletterGenerator.scoreArticle a).compositeScore =
        NewsletterGenerator.categoryScoreOf (NewsletterGenerator.effCategory a) * (7 / 10)
          + a.relevanceScore * (3 / 10))
    ∧ NewsletterGenerator.categoryScoreOf "Safety Alert".data = 100
    ∧ NewsletterGenerator.categoryScoreOf "Driver Wellness".data = 95
    ∧ NewsletterGenerator.categoryScoreOf "Enforcement Action".data = 90
    ∧ NewsletterGenerator.categoryScoreOf "Regulatory Update".data = 80
    ∧ NewsletterGenerator.categoryScoreOf "Technical Update".data = 70
    ∧ NewsletterGenerator.categoryScoreOf "Industry News".data = 60
    ∧ (∀ c : Str, c ∉ NewsletterGenerator.categoryPriorityTable.map Prod.fst →
        NewsletterGenerator.categoryScoreOf c = 50)
    ∧ NewsletterGenerator.prioritizeByCategory
        [Article.mk "industry two".data "w2".data [] "Industry News".data 20 0 0,
         Article.mk "safety one".data "w1".data [] "Safety Alert".data 5 0 0] =
      [NewsletterGenerator.scoreArticle
        (Article.mk "safety one".data "w1".data [] "Safety Alert".data 5 0 0),
       NewsletterGenerator.scoreArticle
        (Article.mk "industry two".data "w2".data [] "Industry News".data 20 0 0)]
    ∧ (NewsletterGenerator.scoreArticle
        (Article.mk "industry two".data "w2".data [] "Industry News".data 20 0 0)).compositeScore
      = 48 := by
  refine ⟨fun arts => ⟨NewsletterGenerator.sortDesc_pairwise _,
      NewsletterGenerator.sortDesc_perm _⟩,
    fun a => rfl, rfl, rfl, rfl, rfl, rfl, rfl, fun c hc => ?_,
    by with_unfolding_all decide, by with_unfolding_all decide⟩
  simp only [NewsletterGenerator.categoryPriorityTable, List.map_cons,
    List.map_nil, List.mem_cons, List.not_mem_nil, or_false, not_or] at hc
  obtain ⟨h1, h2, h3, h4, h5, h6⟩ := hc
  simp [NewsletterGenerator.categoryScoreOf, NewsletterGenerator.categoryPriorityTable,
    List.lookup, beq_eq_false_iff_ne.mpr h1, beq_eq_false_iff_ne.mpr h2,
    beq_eq_false_iff_ne.mpr h3, beq_eq_false_iff_ne.mpr h4,
    beq_eq_false_iff_ne.mpr h5, beq_eq_false_iff_ne.mpr h6]

/-- The default-weight clause of `C5_theorem` at a category name outside
the fixed table. -/
theorem C5_witness :
    NewsletterGenerator.categoryScoreOf "Weather".data = 50 :=
  C5_theorem.2.2.2.2.2.2.2.2.1 "Weather".data (by decide)

/-! ## Claim C6: relevance score monotonicity and cap -/

/-- A keyword fold from an arbitrary start value shifts the start value
out. -/
theorem foldl_ite_shift (l : List (Str × Int)) (p : Str × Int → Bool)
    (init : Int) :
    l.foldl (fun acc kw => if p kw then acc + kw.2 else acc) init =
      init + l.foldl (fun acc kw => if p kw then acc + kw.2 else acc) 0 := by
  induction l generalizing init with
  | nil => simp
  | cons kw l ih =>
    simp only [List.foldl_cons]
    rw [ih, ih (if p kw then 0 + kw.2 else 0)]
    by_cases h : p kw = true <;> simp [h] <;> ring

/-- A keyword fold is monotone when every matched keyword stays matched
and all weights are nonnegative. -/
theorem foldl_ite_mono (l : List (Str × Int)) (p q : Str × Int → Bool)
    (hw : ∀ kw ∈ l, 0 ≤ kw.2)
    (him : ∀ kw ∈ l, p kw = true → q kw = true) :
    l.foldl (fun acc kw => if p kw then acc + kw.2 else acc) 0 ≤
      l.foldl (fun acc kw => if q kw then acc + kw.2 else acc) 0 := by
  induction l with
  | nil => simp
  | cons kw l ih =>
    simp only [List.foldl_cons]
    rw [foldl_ite_shift, foldl_ite_shift _ q]
    have h1 : (if p kw then (0 : Int) + kw.2 else 0) ≤
        (if q kw then (0 : Int) + kw.2 else 0) := by
      by_cases hp : p kw = true
      · rw [if_pos hp, if_pos (him kw (List.mem_cons_self kw l) hp)]
      · rw [if_neg hp]
        by_cases hq : q kw = true
        · rw [if_pos hq]
          have := hw kw (List.mem_cons_self kw l)
          omega
        · rw [if_neg hq]
    have h2 := ih (fun x hx => hw x (List.mem_cons_of_mem kw hx))
      (fun x hx => him x (List.mem_cons_of_mem kw hx))
    omega

/-- Claim C6, confirmed: the relevance score never exceeds 20, and
making additional keywords of the fixed weighted table match (while the
source, the content-length bonus, the title-length bonus and the
summary-length bonus are unchanged) never decreases it. -/
theorem C6_theorem :
    (∀ (t1 s1 t2 s2 : Str) (src : Source),
      (∀ kw ∈ EnhancedNewsScraper.relevanceKeywords,
        containsSub (toLowerStr (t1 ++ ' ' :: s1)) kw.1 = true →
        containsSub (toLowerStr (t2 ++ ' ' :: s2)) kw.1 = true) →
      (200 < (toLowerStr (t1 ++ ' ' :: s1)).length ↔
        200 < (toLowerStr (t2 ++ ' ' :: s2)).length) →
      ((30 < t1.length ∧ t1.length < 100) ↔ (30 < t2.length ∧ t2.length < 100)) →
      (100 < s1.length ↔ 100 < s2.length) →
      EnhancedNewsScraper.calculateRelevanceScore t1 s1 src ≤
        EnhancedNewsScraper.calculateRelevanceScore t2 s2 src)
    ∧ (∀ (t s : Str) (src : Source),
        EnhancedNewsScraper.calculateRelevanceScore t s src ≤ 20) := by
  constructor
  · intro t1 s1 t2 s2 src hkw h200 hTitle hSum
    simp only [EnhancedNewsScraper.calculateRelevanceScore]
    apply min_le_min _ le_rfl
    rw [foldl_ite_shift EnhancedNewsScraper.relevanceKeywords
        (fun kw => containsSub (toLowerStr (t1 ++ ' ' :: s1)) kw.1),
      foldl_ite_shift EnhancedNewsScraper.relevanceKeywords
        (fun kw => containsSub (toLowerStr (t2 ++ ' ' :: s2)) kw.1),
      if_congr h200 rfl rfl, if_congr hTitle rfl rfl, if_congr hSum rfl rfl]
    have hm := foldl_ite_mono EnhancedNewsScraper.relevanceKeywords
      (fun kw => containsSub (toLowerStr (t1 ++ ' ' :: s1)) kw.1)
      (fun kw => containsSub (toLowerStr (t2 ++ ' ' :: s2)) kw.1)
      (by decide) hkw
    dsimp only [] at hm
    omega
  · intro t s src
    exact min_le_right _ _

/-- The monotonicity clause of `C6_theorem` at a concrete pair whose
second summary matches one further keyword (`freight`) with every other
score input unchanged. -/
theorem C6_witness :
    EnhancedNewsScraper.calculateRelevanceScore
      "Heavy vehicle operators on notice".data "transport".data
      (Source.mk "s".data 10 "regulatory".data) ≤
    EnhancedNewsScraper.calculateRelevanceScore
      "Heavy vehicle operators on notice".data "transport freight".data
      (Source.mk "s".data 10 "regulatory".data) :=
  C6_theorem.1 _ _ _ _ _ (by decide) (by decide) (by decide) (by decide)

/-! ## Claim C7: identical pairs collapse on the cheapest check -/

/-- Claim C7, confirmed: for a pair of articles with the same URL the
duplicate cascade fires on check 1 (exact URL equality) and `dedupe([A,B])`
keeps only `A`; with distinct URLs but the same lowercased trimmed title
it fires on check 2, before any similarity measure — since URLs receive no
normalization in the pipeline, identical normalized `(title, url)` pairs
always fall to one of these two exact checks. -/
theorem C7_theorem :
    ∀ A B : Article,
      (A.url = B.url →
        NewsletterGenerator.dupCheck B A = some 1 ∧
        NewsletterGenerator.removeDuplicates [A, B] = [A])
      ∧ (A.url ≠ B.url →
        NewsletterGenerator.lowerTrim A.title = NewsletterGenerator.lowerTrim B.title →
        NewsletterGenerator.dupCheck B A = some 2 ∧
        NewsletterGenerator.removeDuplicates [A, B] = [A]) := by
  intro A B
  constructor
  · intro h
    have hd : NewsletterGenerator.dupCheck B A = some 1 := by
      unfold NewsletterGenerator.dupCheck
      rw [if_pos h.symm]
    exact ⟨hd, by
      simp [NewsletterGenerator.removeDuplicates,
        NewsletterGenerator.removeDuplicatesGo, hd]⟩
  · intro h ht
    have hd : NewsletterGenerator.dupCheck B A = some 2 := by
      unfold NewsletterGenerator.dupCheck
      rw [if_neg (fun hh => h hh.symm), if_pos ht.symm]
    exact ⟨hd, by
      simp [NewsletterGenerator.removeDuplicates,
        NewsletterGenerator.removeDuplicatesGo, hd]⟩

/-- The URL clause of `C7_theorem` at a concrete identical pair. -/
theorem C7_witness :
    NewsletterGenerator.removeDuplicates
      [Article.mk "first news item title".data "u1".data [] [] 0 0 0,
       Article.mk "other news item report".data "u1".data [] [] 0 0 0] =
      [Article.mk "first news item title".data "u1".data [] [] 0 0 0] :=
  ((C7_theorem _ _).1 (by decide)).2

/-! ## Claim C8: first-successful-strategy extraction -/

/-- Claim C8 as stated is false on the code: the first strategy below has
a DOM match (a single element whose extracted title `Ad` is too short for
the validator), yet extraction does not stop there — the result comes from
the second strategy.  The loop stops at the first strategy yielding a
valid article, not at the first strategy yielding a DOM match. -/
theorem C8_counterexample :
    (0 : Nat) < (["Ad".data] : List Str).length
    ∧ EnhancedNewsScraper.collectValid EnhancedNewsScraper.titleLengthValid
        EnhancedNewsScraper.maxArticlesPerSource ["Ad".data] 0 = []
    ∧ EnhancedNewsScraper.scrapeSourceModel EnhancedNewsScraper.titleLengthValid
        [["Ad".data], ["Heavy vehicle safety compliance news".data]] =
      ["Heavy vehicle safety compliance news".data] := by
  refine ⟨by decide, by decide, by decide⟩

/-- Claim C8, amended: the extractor tries the selector strategies in
order and stops as soon as one yields at least one candidate that passes
validation (a strategy whose DOM matches all fail validation does not stop
the loop); the returned list is always the extraction of a single strategy
— never a mixture — and never has more than `maxArticlesPerSource = 20`
elements. -/
theorem C8_theorem :
    ∀ (α : Type) (valid : α → Bool) (strategies : List (List α)),
      (EnhancedNewsScraper.scrapeSourceModel valid strategies).length ≤ 20
      ∧ (EnhancedNewsScraper.scrapeSourceModel valid strategies = [] ∨
         ∃ els ∈ strategies,
           EnhancedNewsScraper.scrapeSourceModel valid strategies =
             EnhancedNewsScraper.collectValid valid
               EnhancedNewsScraper.maxArticlesPerSource els 0) := by
  intro α valid strategies
  have hcases := EnhancedNewsScraper.scrapeStrategies_from_nil valid strategies
  constructor
  · rcases hcases with h | ⟨els, _, heq⟩
    · rw [EnhancedNewsScraper.scrapeSourceModel, h]
      simp
    · rw [EnhancedNewsScraper.scrapeSourceModel, heq]
      have := EnhancedNewsScraper.collectValid_length_le valid
        EnhancedNewsScraper.maxArticlesPerSource els 0
      simpa [EnhancedNewsScraper.maxArticlesPerSource] using this
  · exact hcases

/-! ## Claim C9: the insufficient-content gate -/

/-- Claim C9 as stated is false on the code: the store below answers with
3 articles (so 3 articles are available after the recency, unused and
segment filtering the store performs), yet newsletter generation still
fails with the insufficient-content error, because two of them share a URL
and in-batch deduplication brings the count back under 3. -/
theorem C9_counterexample :
    ([Article.mk "aaa bbb".data "u1".data [] [] 0 0 0,
      Article.mk "aaa bbb".data "u1".data [] [] 0 0 0,
      Article.mk "zzz qqq".data "u2".data [] [] 0 0 0] : List Article).length = 3
    ∧ (NewsletterGenerator.generateNewsletterModel
        [Article.mk "aaa bbb".data "u1".data [] [] 0 0 0,
         Article.mk "aaa bbb".data "u1".data [] [] 0 0 0,
         Article.mk "zzz qqq".data "u2".data [] [] 0 0 0]).isOk = false := by
  refine ⟨by decide, by with_unfolding_all decide⟩

/-- Claim C9, amended: `generateNewsletter` raises the
insufficient-content error whenever the store answers with fewer than 3
articles, and it succeeds exactly when at least 3 articles arrive from the
store AND at least 3 survive the in-batch prioritisation/deduplication
pass — deduplication can push a 3-or-more batch back under the
threshold. -/
theorem C9_theorem :
    ∀ fromStore : List Article,
      (fromStore.length < 3 →
        (NewsletterGenerator.generateNewsletterModel fromStore).isOk = false)
      ∧ ((NewsletterGenerator.generateNewsletterModel fromStore).isOk = true ↔
          (3 ≤ fromStore.length ∧
           3 ≤ (NewsletterGenerator.removeDuplicates
                  (NewsletterGenerator.prioritizeByCategory fromStore)).length)) := by
  intro fromStore
  simp only [NewsletterGenerator.generateNewsletterModel,
    NewsletterGenerator.getRecentArticlesModel]
  by_cases h1 : fromStore.length < 3
  · rw [if_pos h1, if_pos (by simp)]
    refine ⟨fun _ => rfl, ⟨fun hc => ?_, fun hr => absurd hr.1 (by omega)⟩⟩
    simp [Except.isOk, Except.toBool] at hc
  · rw [if_neg h1]
    by_cases h2 : (NewsletterGenerator.removeDuplicates
        (NewsletterGenerator.prioritizeByCategory fromStore)).length < 3
    · rw [if_pos h2]
      refine ⟨fun hc => absurd hc h1,
        ⟨fun hc => ?_, fun hr => absurd hr.2 (by omega)⟩⟩
      simp [Except.isOk, Except.toBool] at hc
    · rw [if_neg h2]
      exact ⟨fun hc => absurd hc h1,
        ⟨fun _ => ⟨by omega, by omega⟩, fun _ => rfl⟩⟩

/-- The short-store clause of `C9_theorem` at the empty store. -/
theorem C9_witness :
    (NewsletterGenerator.generateNewsletterModel []).isOk = false :=
  (C9_theorem []).1 (by decide)

/-! ## Claim C10: deduplication keeps first occurrences in order -/

/-- Claim C10, confirmed: both in-batch deduplication routines return a
subsequence of their input (survivors unchanged, in input order); every
dropped article is a duplicate of some retained article, and whenever the
routine judges the later of two articles a duplicate of the earlier, the
earlier one is the one retained — so after ranking, the highest-ranked
member of each duplicate group survives. -/
theorem C10_theorem :
    (∀ arts : List Article,
      (NewsletterGenerator.removeDuplicates arts).Sublist arts
      ∧ ∀ a ∈ arts, a ∈ NewsletterGenerator.removeDuplicates arts ∨
          ∃ u ∈ NewsletterGenerator.removeDuplicates arts,
            (NewsletterGenerator.dupCheck a u).isSome = true)
    ∧ (∀ A B : Article, (NewsletterGenerator.dupCheck B A).isSome = true →
        NewsletterGenerator.removeDuplicates [A, B] = [A])
    ∧ (∀ arts : List Article,
      (EnhancedNewsScraper.removeDuplicates arts).Sublist arts
      ∧ ∀ a ∈ arts, a ∈ EnhancedNewsScraper.removeDuplicates arts ∨
          ∃ u ∈ EnhancedNewsScraper.removeDuplicates arts,
            EnhancedNewsScraper.isDupOf a u = true)
    ∧ (∀ A B : Article, EnhancedNewsScraper.isDupOf B A = true →
        EnhancedNewsScraper.removeDuplicates [A, B] = [A]) := by
  refine ⟨fun arts => ⟨?_, ?_⟩, fun A B h => ?_, fun arts => ⟨?_, ?_⟩,
    fun A B h => ?_⟩
  · obtain ⟨s, heq, hsub⟩ := NewsletterGenerator.removeDuplicatesGo_append arts []
    rw [NewsletterGenerator.removeDuplicates, heq]
    simpa using hsub
  · exact NewsletterGenerator.removeDuplicatesGo_cover arts []
  · simp [NewsletterGenerator.removeDuplicates,
      NewsletterGenerator.removeDuplicatesGo, h]
  · obtain ⟨s, heq, hsub⟩ :=
      EnhancedNewsScraper.scraperDedupGo_append arts [] [] []
    rw [EnhancedNewsScraper.removeDuplicates, heq]
    simpa using hsub
  · have := EnhancedNewsScraper.scraperDedupGo_cover arts []
    simpa [EnhancedNewsScraper.removeDuplicates] using this
  · have hfst : EnhancedNewsScraper.isDupScraper A [] [] = false := by
      simp [EnhancedNewsScraper.isDupScraper]
    have hsnd : EnhancedNewsScraper.isDupScraper B [A.url]
        [EnhancedNewsScraper.titleKey A.title] = true := by
      have := (EnhancedNewsScraper.isDupScraper_iff B [A]).mpr
        ⟨A, by simp, h⟩
      simpa using this
    simp [EnhancedNewsScraper.removeDuplicates,
      EnhancedNewsScraper.removeDuplicatesGo, hfst, hsnd]

/-- The earlier-retained clause of `C10_theorem` at a concrete same-URL
pair, for both routines. -/
theorem C10_witness :
    NewsletterGenerator.removeDuplicates
      [Article.mk "alpha news story".data "v1".data [] [] 0 0 0,
       Article.mk "beta news report".data "v1".data [] [] 0 0 0] =
      [Article.mk "alpha news story".data "v1".data [] [] 0 0 0]
    ∧ EnhancedNewsScraper.removeDuplicates
      [Article.mk "alpha news story".data "v1".data [] [] 0 0 0,
       Article.mk "beta news report".data "v1".data [] [] 0 0 0] =
      [Article.mk "alpha news story".data "v1".data [] [] 0 0 0] :=
  ⟨C10_theorem.2.1 _ _ (by decide),
   C10_theorem.2.2.2 _ _ (by decide)⟩
